import Mathlib

/-!
Verification of the managed engine adapter of mvp-echo-toolbar
(`mvp-stt-docker/adapters/managed_ws_adapter.py` and
`mvp-stt-docker/adapters/subprocess_adapter.py`), shallowly embedded in Lean.

Machine integers are modelled as `Nat` with explicit `% 256` byte splitting;
the filesystem is a list of existing file paths; the event loop's
nondeterminism (lock acquisition, socket failures, subprocess readiness,
clock reads) is passed in explicitly as environment records.
-/

/-! ## Wire protocol client (`ManagedWebSocketAdapter._do_transcribe`) -/

/-- The chunk size used when streaming the audio buffer
(`chunk_size = 10240` in `_do_transcribe`). -/
def chunkSize : Nat := 10240

/-- `RECV_TIMEOUT` constant of `managed_ws_adapter.py` (seconds). -/
def RECV_TIMEOUT : Nat := 120

/-- `CONNECT_TIMEOUT` constant of `managed_ws_adapter.py` (seconds). -/
def CONNECT_TIMEOUT : Nat := 10

/-- `LOCK_TIMEOUT` constant of `managed_ws_adapter.py` (seconds). -/
def LOCK_TIMEOUT : Nat := 130

/-- Little-endian 4-byte encoding of a 32-bit value, as produced by
`struct.pack` for one `<i` field (for in-range values) and by
`numpy.float32.tobytes` for one sample's 32-bit pattern. -/
def le32 (n : Nat) : List Nat :=
  [n % 256, n / 256 % 256, n / 65536 % 256, n / 16777216 % 256]

/-- `struct.pack("<ii", sample_rate, byte_count)`: the 8-byte header. -/
def packHeader (sampleRate byteCount : Nat) : List Nat :=
  le32 sampleRate ++ le32 byteCount

/-- `samples.tobytes()`: each float32 sample, given by its 32-bit pattern,
contributes its 4 bytes in little-endian order. -/
def samplesToBytes (samples : List Nat) : List Nat :=
  samples.flatMap le32

/-- `buf = header + samples.tobytes()` in `_do_transcribe`
(`header = struct.pack("<ii", sample_rate, samples.size * 4)`). -/
def transcribeSendBuf (sampleRate : Nat) (samples : List Nat) : List Nat :=
  packHeader sampleRate (samples.length * 4) ++ samplesToBytes samples

/-- `for start in range(0, len(buf), chunk_size): await ws.send(buf[start : start + chunk_size])`:
split the buffer into successive slices of at most `chunkSize` bytes. -/
def sendChunks : List Nat → List (List Nat)
  | [] => []
  | b :: rest => ((b :: rest).take chunkSize) :: sendChunks ((b :: rest).drop chunkSize)
termination_by l => l.length
decreasing_by
  simp [List.length_drop, chunkSize]
  omega

/-- One message sent on the WebSocket connection: a binary frame of bytes, or
a text frame. -/
inductive WireMsg where
  | binary (bytes : List Nat)
  | text (s : String)
deriving DecidableEq, Repr

/-- The complete ordered list of messages one `_do_transcribe` call sends:
the chunked header-plus-payload buffer, then the `"Done"` terminator
(sent after the single `ws.recv()`). -/
def exchangeSends (sampleRate : Nat) (samples : List Nat) : List WireMsg :=
  (sendChunks (transcribeSendBuf sampleRate samples)).map WireMsg.binary
    ++ [WireMsg.text "Done"]

theorem le32_length (n : Nat) : (le32 n).length = 4 := rfl

theorem samplesToBytes_length (samples : List Nat) :
    (samplesToBytes samples).length = 4 * samples.length := by
  induction samples with
  | nil => rfl
  | cons s rest ih =>
      simp [samplesToBytes, le32] at ih ⊢
      omega

theorem transcribeSendBuf_length (sampleRate : Nat) (samples : List Nat) :
    (transcribeSendBuf sampleRate samples).length = 8 + 4 * samples.length := by
  simp [transcribeSendBuf, packHeader, le32_length, samplesToBytes_length]
  omega

/-- Concatenating the sent chunks recovers the buffer. -/
theorem sendChunks_flatten (l : List Nat) : (sendChunks l).flatten = l := by
  induction l using sendChunks.induct with
  | case1 => simp [sendChunks]
  | case2 b rest ih =>
      rw [sendChunks]
      simp only [List.flatten_cons, ih]
      exact List.take_append_drop _ _

/-- Every sent chunk is at most `chunkSize` bytes. -/
theorem sendChunks_le (l : List Nat) :
    ∀ w ∈ sendChunks l, w.length ≤ chunkSize := by
  induction l using sendChunks.induct with
  | case1 => simp [sendChunks]
  | case2 b rest ih =>
      rw [sendChunks]
      intro w hw
      rcases List.mem_cons.mp hw with h | h
      · subst h
        simp [List.length_take]
      · exact ih w h

/-- The number of writes is `ceil(len(buf) / chunkSize)`. -/
theorem sendChunks_length (l : List Nat) :
    (sendChunks l).length = (l.length + (chunkSize - 1)) / chunkSize := by
  induction l using sendChunks.induct with
  | case1 => simp [sendChunks, chunkSize]
  | case2 b rest ih =>
      rw [sendChunks]
      simp only [List.length_cons, ih, List.length_drop]
      have hlen : (b :: rest).length = rest.length + 1 := rfl
      simp only [chunkSize] at *
      omega

/-! ## Response parsing (`_do_transcribe`, lines 205-215)

`json.loads` is modelled by a small recursive-descent parser over the JSON
subset the two engine transports emit (objects, arrays, strings with the
basic escapes, integer numbers, `true`/`false`/`null`).  A parse failure
models `json.JSONDecodeError`. -/

/-- A Python value as returned by `json.loads`. -/
inductive PyJson where
  | null
  | bool (b : Bool)
  | num (n : Int)
  | str (s : String)
  | arr (elems : List PyJson)
  | obj (fields : List (String × PyJson))

/-- The opening-brace character, written via its code point. -/
def lbrace : Char := Char.ofNat 123

/-- The closing-brace character, written via its code point. -/
def rbrace : Char := Char.ofNat 125

/-- Skip JSON whitespace. -/
def skipWs : List Char → List Char
  | c :: cs =>
      if c = ' ' ∨ c = '\t' ∨ c = '\n' ∨ c = '\r' then skipWs cs else c :: cs
  | [] => []

/-- Decode one character escape inside a JSON string literal. -/
def escChar (c : Char) : Option Char :=
  if c = '"' then some '"'
  else if c = '\\' then some '\\'
  else if c = '/' then some '/'
  else if c = 'n' then some '\n'
  else if c = 't' then some '\t'
  else if c = 'r' then some '\r'
  else if c = 'b' then some (Char.ofNat 8)
  else if c = 'f' then some (Char.ofNat 12)
  else none

/-- Parse the body of a JSON string literal (the opening quote already
consumed), returning the decoded characters and the rest of the input. -/
def parseStringBody : List Char → Option (List Char × List Char)
  | [] => none
  | '"' :: rest => some ([], rest)
  | '\\' :: e :: rest =>
      match escChar e, parseStringBody rest with
      | some c, some (s, r) => some (c :: s, r)
      | _, _ => none
  | '\\' :: [] => none
  | c :: rest =>
      match parseStringBody rest with
      | some (s, r) => some (c :: s, r)
      | none => none

/-- Digits to a natural number. -/
def digitsToNat (ds : List Char) : Nat :=
  ds.foldl (fun a c => a * 10 + (c.toNat - 48)) 0

mutual

/-- Parse one JSON value. -/
def parseValue : Nat → List Char → Option (PyJson × List Char)
  | 0, _ => none
  | fuel + 1, input =>
    match skipWs input with
    | [] => none
    | '"' :: rest =>
        match parseStringBody rest with
        | some (s, r) => some (PyJson.str (String.mk s), r)
        | none => none
    | 't' :: 'r' :: 'u' :: 'e' :: rest => some (PyJson.bool true, rest)
    | 'f' :: 'a' :: 'l' :: 's' :: 'e' :: rest => some (PyJson.bool false, rest)
    | 'n' :: 'u' :: 'l' :: 'l' :: rest => some (PyJson.null, rest)
    | c :: rest =>
        if c = lbrace then
          match skipWs rest with
          | c2 :: r2 =>
              if c2 = rbrace then some (PyJson.obj [], r2)
              else
                match parseMembers fuel (c2 :: r2) with
                | some (fields, r) => some (PyJson.obj fields, r)
                | none => none
          | [] => none
        else if c = '[' then
          match skipWs rest with
          | ']' :: r2 => some (PyJson.arr [], r2)
          | r2 =>
              match parseElems fuel r2 with
              | some (elems, r) => some (PyJson.arr elems, r)
              | none => none
        else if c = '-' then
          match List.span Char.isDigit rest with
          | ([], _) => none
          | (ds, r) => some (PyJson.num (-(digitsToNat ds : Int)), r)
        else if c.isDigit then
          match List.span Char.isDigit (c :: rest) with
          | (ds, r) => some (PyJson.num (digitsToNat ds), r)
        else none

/-- Parse the members of a JSON object after the opening brace (first
member starts here; the empty object is handled by `parseValue`). -/
def parseMembers : Nat → List Char → Option (List (String × PyJson) × List Char)
  | 0, _ => none
  | fuel + 1, input =>
    match skipWs input with
    | '"' :: rest =>
        match parseStringBody rest with
        | none => none
        | some (key, r1) =>
            match skipWs r1 with
            | ':' :: r2 =>
                match parseValue fuel r2 with
                | none => none
                | some (v, r3) =>
                    match skipWs r3 with
                    | ',' :: r4 =>
                        match parseMembers fuel r4 with
                        | none => none
                        | some (fields, r5) =>
                            some ((String.mk key, v) :: fields, r5)
                    | c :: r4 =>
                        if c = rbrace then some ([(String.mk key, v)], r4)
                        else none
                    | [] => none
            | _ => none
    | _ => none

/-- Parse the elements of a JSON array after the opening bracket (first
element starts here; the empty array is handled by `parseValue`). -/
def parseElems : Nat → List Char → Option (List PyJson × List Char)
  | 0, _ => none
  | fuel + 1, input =>
    match parseValue fuel input with
    | none => none
    | some (v, r1) =>
        match skipWs r1 with
        | ',' :: r2 =>
            match parseElems fuel r2 with
            | none => none
            | some (elems, r3) => some (v :: elems, r3)
        | ']' :: r2 => some ([v], r2)
        | _ => none

end

/-- `json.loads(result)`: parse the whole input as one JSON document, or
fail (modelling `json.JSONDecodeError`). -/
def json_loads (s : String) : Option PyJson :=
  match parseValue (s.length + 1) s.data with
  | some (v, rest) => if skipWs rest = [] then some v else none
  | none => none

/-- Whitespace for Python's `str.strip` (the ASCII whitespace characters). -/
def isPyWs (c : Char) : Bool :=
  c = ' ' || c = '\t' || c = '\n' || c = '\r' || c = Char.ofNat 11 || c = Char.ofNat 12

/-- Python `str.strip()`: remove leading and trailing whitespace. -/
def pyStrip (s : String) : String :=
  String.mk (((s.data.dropWhile isPyWs).reverse.dropWhile isPyWs).reverse)

/-- Python `dict.get` on the dictionary built by `json.loads` (a duplicated
key keeps its last value). -/
def dictGet (key : String) (fields : List (String × PyJson)) : Option PyJson :=
  (fields.reverse.find? (fun kv => kv.1 == key)).map (·.2)

/-- The result-parsing step at the end of `_do_transcribe`:

```python
try:
    parsed = json.loads(result)
    return parsed.get("text", "").strip()
except (json.JSONDecodeError, TypeError):
    text = result.strip() if isinstance(result, str) else result.decode().strip()
    return "" if text == "<EMPTY>" else text
```

`.error` is an uncaught Python exception escaping the `try` block
(an `AttributeError` from calling `.get` on a non-dict or `.strip` on a
non-string), which makes the enclosing transcription attempt fail. -/
def parseResponse (result : String) : Except String String :=
  match json_loads result with
  | some (PyJson.obj fields) =>
      match dictGet "text" fields with
      | some (PyJson.str s) => Except.ok (pyStrip s)
      | some _ => Except.error "AttributeError"
      | none => Except.ok ""
  | some _ => Except.error "AttributeError"
  | none =>
      let text := pyStrip result
      Except.ok (if text = "<EMPTY>" then "" else text)

/-! ## Model directory resolver (`subprocess_adapter.py`) -/

/-- One entry of `KNOWN_MODELS`: the HuggingFace repo and the directory
alias (`dir_prefix`) registered for a known model id. -/
structure KnownModel where
  hf_repo : String
  aliasDirName : String
deriving DecidableEq, Repr

/-- `KNOWN_MODELS` from `subprocess_adapter.py`. -/
def KNOWN_MODELS : List (String × KnownModel) :=
  [("parakeet-tdt-0.6b-v2-int8",
    ⟨"csukuangfj/sherpa-onnx-nemo-parakeet-tdt-0.6b-v2-int8",
     "sherpa-onnx-nemo-parakeet-tdt-0.6b-v2-int8"⟩),
   ("parakeet-tdt-0.6b-v3-int8",
    ⟨"csukuangfj/sherpa-onnx-nemo-parakeet-tdt-0.6b-v3-int8",
     "sherpa-onnx-nemo-parakeet-tdt-0.6b-v3-int8"⟩)]

/-- `pathlib`'s `/` operator on string paths. -/
def pathJoin (d f : String) : String := d ++ "/" ++ f

/-- `Path.is_file()` against the modelled filesystem: the list of paths at
which a regular file exists. -/
def isFile (fs : List String) (p : String) : Bool := fs.contains p

/-- `_find_model_dir(base_dir, model_id)`: try `base_dir/model_id`, then
`base_dir/sherpa-onnx-nemo-{model_id}`, then the directory alias registered
in `KNOWN_MODELS`; a candidate is accepted iff it contains `tokens.txt`. -/
def find_model_dir (fs : List String) (base_dir model_id : String) : Option String :=
  let candidate := pathJoin base_dir model_id
  if isFile fs (pathJoin candidate "tokens.txt") then some candidate
  else
    let withVendor := pathJoin base_dir ("sherpa-onnx-nemo-" ++ model_id)
    if isFile fs (pathJoin withVendor "tokens.txt") then some withVendor
    else
      match KNOWN_MODELS.find? (fun kv => kv.1 == model_id) with
      | some kv =>
          let aliased := pathJoin base_dir kv.2.aliasDirName
          if isFile fs (pathJoin aliased "tokens.txt") then some aliased else none
      | none => none

/-- The four resolved component files of a model. -/
structure ModelFiles where
  encoder : String
  decoder : String
  joiner : String
  tokens : String
deriving DecidableEq, Repr

/-- The body of `_detect_model_files`'s component loop: prefer
`{component}.int8.onnx` over `{component}.onnx`. -/
def pickComponent (fs : List String) (model_dir component : String) : Option String :=
  let int8Path := pathJoin model_dir (component ++ ".int8.onnx")
  let plainPath := pathJoin model_dir (component ++ ".onnx")
  if isFile fs int8Path then some int8Path
  else if isFile fs plainPath then some plainPath
  else none

/-- `_detect_model_files(model_dir)`: require `tokens.txt`, then detect the
encoder, decoder and joiner.  `.error (component, dir)` models
`FileNotFoundError(f"... not found in ...")` with that component and
directory in the message. -/
def detect_model_files (fs : List String) (model_dir : String) :
    Except (String × String) ModelFiles :=
  if ¬ isFile fs (pathJoin model_dir "tokens.txt") then
    Except.error ("tokens.txt", model_dir)
  else
    match pickComponent fs model_dir "encoder" with
    | none => Except.error ("encoder", model_dir)
    | some enc =>
        match pickComponent fs model_dir "decoder" with
        | none => Except.error ("decoder", model_dir)
        | some dec =>
            match pickComponent fs model_dir "joiner" with
            | none => Except.error ("joiner", model_dir)
            | some joi =>
                Except.ok ⟨enc, dec, joi, pathJoin model_dir "tokens.txt"⟩

/-! ## Managed adapter data model (`managed_ws_adapter.py`) -/

/-- The in-memory health metrics (`HealthMetrics` dataclass).
`last_restart_time` holds a `time.time()` reading in whole seconds. -/
structure HealthMetrics where
  request_count : Nat
  error_count : Nat
  consecutive_errors : Nat
  last_restart_time : Nat
  subprocess_restart_count : Nat
deriving DecidableEq, Repr

/-- The dataclass defaults: all counters zero. -/
def HealthMetrics.init : HealthMetrics := ⟨0, 0, 0, 0, 0⟩

/-- `HealthMetrics.record_success`. -/
def HealthMetrics.record_success (m : HealthMetrics) : HealthMetrics :=
  { m with request_count := m.request_count + 1, consecutive_errors := 0 }

/-- `HealthMetrics.record_error`. -/
def HealthMetrics.record_error (m : HealthMetrics) : HealthMetrics :=
  { m with request_count := m.request_count + 1,
           error_count := m.error_count + 1,
           consecutive_errors := m.consecutive_errors + 1 }

/-- `HealthMetrics.record_restart` (`now` is the `time.time()` reading). -/
def HealthMetrics.record_restart (m : HealthMetrics) (now : Nat) : HealthMetrics :=
  { m with subprocess_restart_count := m.subprocess_restart_count + 1,
           last_restart_time := now }

/-- `HealthMetrics.reset`. -/
def HealthMetrics.reset (_ : HealthMetrics) : HealthMetrics := HealthMetrics.init

/-- An `asyncio.subprocess.Process` handle: its PID and its `returncode`
(`none` while the process has not been observed to exit). -/
structure Proc where
  pid : Nat
  returncode : Option Int
deriving DecidableEq, Repr

/-- The mutable fields of a `ManagedWebSocketAdapter` together with its
construction-time configuration.  `ws_open` models whether `self._ws` is a
connection object (`true`) or `None`; times are `time.time()` readings in
whole seconds, with `0` as the unset sentinel. -/
structure Adapter where
  base_dir : String
  provider : String
  num_threads : String
  default_model : String
  port : Nat
  max_utterance : String
  proactive_restart_hours : Nat
  model_id : Option String
  model_dir : Option String
  model_files : Option ModelFiles
  process : Option Proc
  state : String
  ws_open : Bool
  subprocess_started_at : Nat
  metrics : HealthMetrics
deriving DecidableEq, Repr

/-- How the OS behaves during `_kill_process` when a live process is present:
`send_signal` may raise `ProcessLookupError`, the process may exit within
the 5s grace wait, or SIGKILL escalation runs (where both remaining
outcomes are swallowed by `pass`). -/
inductive KillBehavior where
  | lookupGone
  | graceful
  | forced
deriving DecidableEq, Repr

/-- `ManagedWebSocketAdapter._close_connection`: errors from `ws.close()`
are swallowed and `self._ws` is set to `None`. -/
def Adapter.close_connection (a : Adapter) : Adapter := { a with ws_open := false }

/-- `ManagedWebSocketAdapter._kill_process`: every path — no process,
already-exited process, `ProcessLookupError`, graceful exit, and forced
kill (including a swallowed kill timeout) — ends with `self._process = None`
and raises nothing. -/
def Adapter.kill_process (a : Adapter) (k : KillBehavior) : Adapter :=
  match a.process with
  | none => a
  | some p =>
      if p.returncode.isSome then { a with process := none }
      else
        match k with
        | KillBehavior.lookupGone => { a with process := none }
        | KillBehavior.graceful => { a with process := none }
        | KillBehavior.forced => { a with process := none }

/-- `ManagedWebSocketAdapter._do_unload` (the body of `unload_model`, run
with the lock held): close the connection, stop the subprocess, clear the
model identity and the start timestamp, set state `"unloaded"`. -/
def Adapter.do_unload (a : Adapter) (k : KillBehavior) : Adapter :=
  let a1 := a.close_connection
  let a2 := a1.kill_process k
  { a2 with model_id := none, model_dir := none, model_files := none,
            state := "unloaded", subprocess_started_at := 0 }

/-- `ManagedWebSocketAdapter.unload_model`: `_do_unload` under the lock
(`async with self._lock` has no timeout and cannot fail). -/
def Adapter.unload_model (a : Adapter) (k : KillBehavior) : Adapter :=
  a.do_unload k

/-! ## Transcription (`ManagedWebSocketAdapter.transcribe`) -/

/-- The outcome of the socket work of one `_do_transcribe` attempt:
either some awaited operation (ping/connect/send/recv/`"Done"`) raised —
modelling timeouts and connection failures — or a response message was
received and the terminator was sent. -/
inductive AttemptResult where
  | ioError
  | received (raw : String)
deriving DecidableEq, Repr

/-- The value/exception outcome of one `_do_transcribe` attempt: an I/O
failure, or the received message fed through the response-parsing step
(whose own `AttributeError` also escapes `_do_transcribe`). -/
def attemptOutcome : AttemptResult → Except Unit String
  | AttemptResult.ioError => Except.error ()
  | AttemptResult.received raw =>
      match parseResponse raw with
      | Except.ok t => Except.ok t
      | Except.error _ => Except.error ()

/-- State effect of one `_do_transcribe` attempt: when a message was
received, `_ensure_connection` had established the persistent connection;
on an I/O error the connection field is left as-is (the caller closes it
right after). -/
def Adapter.do_transcribe (a : Adapter) (r : AttemptResult) :
    Except Unit String × Adapter :=
  (attemptOutcome r,
   match r with
   | AttemptResult.ioError => a
   | AttemptResult.received _ => { a with ws_open := true })

/-- The exceptions `transcribe` can raise, by raise site:
`lockTimeout` models the `RuntimeError` for the 130s lock wait,
`notReady` the guard `RuntimeError` (carrying the state in its message),
`restartFailed` the `RuntimeError` of `_restart_subprocess` (carrying the
model id), and `retryFailed` the terminal `RuntimeError` after attempt 2. -/
inductive TranscribeError where
  | lockTimeout
  | notReady (state : String)
  | restartFailed (model : Option String)
  | retryFailed
deriving DecidableEq, Repr

/-- Environment of one `transcribe` call: whether the lock was acquired
within `LOCK_TIMEOUT`, the `time.time()` reading, the readiness outcome and
PID of a proactive restart (if one runs), the two attempts' socket
outcomes, and the readiness outcome and PID of the failure-recovery
restart (if one runs). -/
structure TranscribeEnv where
  lock_ok : Bool
  now : Nat
  proactive_ready : Bool
  proactive_pid : Nat
  attempt1 : AttemptResult
  restart_ready : Bool
  restart_pid : Nat
  attempt2 : AttemptResult
deriving DecidableEq, Repr

/-- `ManagedWebSocketAdapter._restart_subprocess`: close the connection,
kill the process, spawn a new one, wait for readiness; on failure kill
again, set state `"error"` and raise; on success stamp
`subprocess_started_at`, record the restart and set state `"loaded"`. -/
def Adapter.restart_subprocess (a : Adapter) (now newPid : Nat) (ready : Bool)
    (k : KillBehavior) : Except TranscribeError Unit × Adapter :=
  let a1 := a.close_connection
  let a2 := a1.kill_process k
  let a3 := { a2 with process := some ⟨newPid, none⟩ }
  if ready then
    (Except.ok (),
     { a3 with subprocess_started_at := now,
               metrics := a3.metrics.record_restart now,
               state := "loaded" })
  else
    let a4 := a3.kill_process k
    (Except.error (TranscribeError.restartFailed a.model_id),
     { a4 with state := "error" })

/-- The condition of `_maybe_proactive_restart`: the feature is enabled,
the start timestamp is set, and the elapsed time has reached the threshold
(`elapsed_hours >= PROACTIVE_RESTART_HOURS`, in whole seconds). -/
def Adapter.proactiveDue (a : Adapter) (now : Nat) : Bool :=
  decide (0 < a.proactive_restart_hours)
    && decide (a.subprocess_started_at ≠ 0)
    && decide (a.proactive_restart_hours * 3600 ≤ now - a.subprocess_started_at)

/-- `ManagedWebSocketAdapter._maybe_proactive_restart`. -/
def Adapter.maybe_proactive_restart (a : Adapter) (env : TranscribeEnv)
    (k : KillBehavior) : Except TranscribeError Unit × Adapter :=
  if a.proactiveDue env.now then
    a.restart_subprocess env.now env.proactive_pid env.proactive_ready k
  else (Except.ok (), a)

/-- `ManagedWebSocketAdapter.transcribe`: lock acquisition with timeout,
the not-ready guard, the proactive restart, attempt 1, and on failure the
restart-and-retry with attempt 2.  The returned adapter is the state after
the `finally` block released the lock. -/
def Adapter.transcribe (a : Adapter) (env : TranscribeEnv) (k : KillBehavior) :
    Except TranscribeError String × Adapter :=
  if env.lock_ok = false then
    (Except.error TranscribeError.lockTimeout, a)
  else if a.state ≠ "loaded" ∨ a.process = none then
    (Except.error (TranscribeError.notReady a.state), a)
  else
    match a.maybe_proactive_restart env k with
    | (Except.error e, a1) => (Except.error e, a1)
    | (Except.ok _, a1) =>
        match a1.do_transcribe env.attempt1 with
        | (Except.ok text, a2) =>
            (Except.ok text, { a2 with metrics := a2.metrics.record_success })
        | (Except.error _, a2) =>
            let a3 := { a2 with metrics := a2.metrics.record_error }
            let a4 := a3.close_connection
            match a4.restart_subprocess env.now env.restart_pid env.restart_ready k with
            | (Except.error e, a5) => (Except.error e, a5)
            | (Except.ok _, a5) =>
                match a5.do_transcribe env.attempt2 with
                | (Except.ok text, a6) =>
                    (Except.ok text,
                     { a6 with metrics := a6.metrics.record_success })
                | (Except.error _, a6) =>
                    let a7 := { a6 with metrics := a6.metrics.record_error }
                    let a8 := a7.close_connection
                    (Except.error TranscribeError.retryFailed, a8)

/-! ## Model loading (`ManagedWebSocketAdapter.load_model`) -/

/-- The exceptions `load_model` can raise: `FileNotFoundError` when no
candidate directory validates, the incomplete-model `RuntimeError`
(wrapping the component's `FileNotFoundError`), and the startup-failure
`RuntimeError` (whose message names the PID, already `None` after the
kill). -/
inductive LoadError where
  | notFound (model_id base_dir : String)
  | incomplete (model_id component dir : String)
  | startupFailed (pid : Option Nat)
deriving DecidableEq, Repr

/-- Environment of one `load_model` call: the filesystem, the readiness
outcome of `_wait_for_ready`, the `time.time()` reading, and the new
subprocess's PID. -/
structure LoadEnv where
  fs : List String
  ready : Bool
  now : Nat
  new_pid : Nat
deriving DecidableEq, Repr

/-- `ManagedWebSocketAdapter.load_model(model_id)`, run with the lock held:
no-op when the same model is already loaded; unload first when switching;
set state `"loading"` and reset the metrics; resolve the model directory
and its files; start the subprocess and wait for readiness. -/
def Adapter.load_model (a : Adapter) (mid : String) (env : LoadEnv)
    (k : KillBehavior) : Except LoadError Unit × Adapter :=
  if a.model_id = some mid ∧ a.state = "loaded" then (Except.ok (), a)
  else
    let a0 := if a.model_id.isSome ∧ a.model_id ≠ some mid then a.do_unload k else a
    let a1 := { a0 with state := "loading", metrics := a0.metrics.reset }
    match find_model_dir env.fs a1.base_dir mid with
    | none =>
        (Except.error (LoadError.notFound mid a1.base_dir),
         { a1 with state := "error" })
    | some dir =>
        match detect_model_files env.fs dir with
        | Except.error (comp, d) =>
            (Except.error (LoadError.incomplete mid comp d),
             { a1 with state := "error" })
        | Except.ok files =>
            let a2 := { a1 with model_id := some mid, model_dir := some dir,
                                model_files := some files,
                                process := some ⟨env.new_pid, none⟩ }
            if env.ready = false then
              let a3 := a2.kill_process k
              (Except.error (LoadError.startupFailed (a3.process.map Proc.pid)),
               { a3 with state := "error" })
            else
              (Except.ok (),
               { a2 with subprocess_started_at := env.now, state := "loaded" })

/-! ## The mutual-exclusion gate (`self._lock`) and the wire transcript

`transcribe`, `load_model` and `unload_model` all run their bodies between
an acquire and a release of the adapter's single `asyncio.Lock`, and every
`ws.send` of a transcription happens between that call's acquire and its
release.  A scheduling of concurrent calls is a trace of gate events; the
lock's semantics makes exactly the well-formed traces possible. -/

/-- One observable event of a gate-serialized operation: caller `c`
acquires the lock, sends one message on the wire, or releases the lock. -/
inductive GateEvent where
  | acquire (c : Nat)
  | wire (c : Nat) (m : WireMsg)
  | release (c : Nat)
deriving DecidableEq, Repr

/-- The caller an event belongs to. -/
def GateEvent.caller : GateEvent → Nat
  | GateEvent.acquire c => c
  | GateEvent.wire c _ => c
  | GateEvent.release c => c

/-- How one event updates the lock holder. -/
def stepHolder (h : Option Nat) : GateEvent → Option Nat
  | GateEvent.acquire c => some c
  | GateEvent.release _ => none
  | GateEvent.wire _ _ => h

/-- Well-formedness of a trace starting with lock holder `h`: an acquire
happens only while the lock is free (`asyncio.Lock` blocks otherwise), a
release only by the holder, and — because every `ws.send` of `transcribe`
is executed while that call holds the lock — a wire event only by the
holder. -/
def wfFrom : Option Nat → List GateEvent → Bool
  | _, [] => true
  | h, GateEvent.acquire c :: tr => h == none && wfFrom (some c) tr
  | h, GateEvent.release c :: tr => h == some c && wfFrom none tr
  | h, GateEvent.wire c _ :: tr => h == some c && wfFrom h tr

/-- A possible scheduling of gate-serialized operations (lock initially
free). -/
def wfTrace (tr : List GateEvent) : Bool := wfFrom none tr

/-- How many times caller `c` acquires the gate in a trace.  Each public
adapter call (`transcribe`, `load_model`, `unload_model`) acquires the
lock exactly once, so a trace of distinct in-flight calls gives every
caller at most one acquire. -/
def acqCount (c : Nat) (tr : List GateEvent) : Nat :=
  tr.countP fun e =>
    match e with
    | GateEvent.acquire c2 => c2 == c
    | _ => false

/-- The lock holder after the first `i` events. -/
def holdAt (tr : List GateEvent) (i : Nat) : Option Nat :=
  (tr.take i).foldl stepHolder none

/-- The events one `transcribe` call of caller `c` contributes to a trace:
acquire, the wire-protocol sends of the exchange, release. -/
def transcribeEvents (c sampleRate : Nat) (samples : List Nat) : List GateEvent :=
  GateEvent.acquire c ::
    ((exchangeSends sampleRate samples).map (GateEvent.wire c)
      ++ [GateEvent.release c])

/-- What the lock semantics requires of an event fired while `h` holds. -/
def eventOK (h : Option Nat) : GateEvent → Prop
  | GateEvent.acquire _ => h = none
  | GateEvent.wire c _ => h = some c
  | GateEvent.release c => h = some c

theorem wfFrom_cons {h : Option Nat} {e : GateEvent} {tr : List GateEvent}
    (hwf : wfFrom h (e :: tr) = true) :
    eventOK h e ∧ wfFrom (stepHolder h e) tr = true := by
  cases e <;> simp [wfFrom, eventOK, stepHolder] at hwf ⊢ <;> tauto

theorem holdAt_succ (tr : List GateEvent) (i : Nat) (e : GateEvent)
    (h : tr[i]? = some e) :
    holdAt tr (i + 1) = stepHolder (holdAt tr i) e := by
  unfold holdAt
  rw [List.take_succ, h]
  simp

theorem holdAt_succ_none (tr : List GateEvent) (i : Nat)
    (h : tr[i]? = none) :
    holdAt tr (i + 1) = holdAt tr i := by
  unfold holdAt
  rw [List.take_succ, h]
  simp

/-- In a well-formed trace every event respects the lock holder at its
position. -/
theorem wf_event (h0 : Option Nat) (tr : List GateEvent)
    (hwf : wfFrom h0 tr = true) (i : Nat) (e : GateEvent)
    (he : tr[i]? = some e) :
    eventOK ((tr.take i).foldl stepHolder h0) e := by
  induction tr generalizing h0 i with
  | nil => simp at he
  | cons e0 rest ih =>
      obtain ⟨hok, hrest⟩ := wfFrom_cons hwf
      cases i with
      | zero =>
          simp at he
          subst he
          simpa using hok
      | succ i2 =>
          simp at he
          have := ih (stepHolder h0 e0) hrest i2 he
          simpa using this

theorem wf_event_holdAt (tr : List GateEvent) (hwf : wfTrace tr = true)
    (i : Nat) (e : GateEvent) (he : tr[i]? = some e) :
    eventOK (holdAt tr i) e :=
  wf_event none tr hwf i e he

/-- The lock is held by `a` only after an acquire by `a`. -/
theorem holdAt_some_acquire (tr : List GateEvent) (i : Nat) (a : Nat)
    (h : holdAt tr i = some a) :
    ∃ m, m < i ∧ tr[m]? = some (GateEvent.acquire a) := by
  induction i with
  | zero => simp [holdAt] at h
  | succ i2 ih =>
      cases he : tr[i2]? with
      | none =>
          rw [holdAt_succ_none tr i2 he] at h
          obtain ⟨m, hm, hget⟩ := ih h
          exact ⟨m, by omega, hget⟩
      | some e =>
          rw [holdAt_succ tr i2 e he] at h
          cases e with
          | acquire c =>
              simp [stepHolder] at h
              rw [h] at he
              exact ⟨i2, by omega, he⟩
          | wire c m2 =>
              simp [stepHolder] at h
              obtain ⟨m, hm, hget⟩ := ih h
              exact ⟨m, by omega, hget⟩
          | release c => simp [stepHolder] at h

/-- Discrete crossing: a predicate false at `j` and true at `j + d` flips
somewhere in between. -/
theorem nat_crossing (P : Nat → Prop) [DecidablePred P] :
    ∀ d j, ¬ P j → P (j + d) → ∃ m, j ≤ m ∧ m < j + d ∧ ¬ P m ∧ P (m + 1) := by
  intro d
  induction d with
  | zero =>
      intro j hnp hp
      exact absurd hp hnp
  | succ d2 ih =>
      intro j hnp hp
      by_cases h : P (j + d2)
      · obtain ⟨m, h1, h2, h3, h4⟩ := ih j hnp h
        exact ⟨m, h1, by omega, h3, h4⟩
      · exact ⟨j + d2, by omega, by omega, h, hp⟩

/-- Two distinct acquire events by the same caller make its acquire count
at least two. -/
theorem two_acquires (tr : List GateEvent) (a : Nat) (i j : Nat) (hij : i < j)
    (hi : tr[i]? = some (GateEvent.acquire a))
    (hj : tr[j]? = some (GateEvent.acquire a)) :
    2 ≤ acqCount a tr := by
  have hsplit := (List.take_append_drop j tr).symm
  unfold acqCount
  rw [hsplit, List.countP_append]
  have h1 : (tr.take j)[i]? = some (GateEvent.acquire a) := by
    rw [List.getElem?_take_of_lt hij]
    exact hi
  have h2 : (tr.drop j)[0]? = some (GateEvent.acquire a) := by
    rw [List.getElem?_drop]
    simpa using hj
  have c1 : 0 < (tr.take j).countP
      (fun e => match e with
        | GateEvent.acquire c2 => c2 == a
        | _ => false) :=
    List.countP_pos_iff.mpr ⟨_, List.getElem?_mem h1, by simp⟩
  have c2 : 0 < (tr.drop j).countP
      (fun e => match e with
        | GateEvent.acquire c2 => c2 == a
        | _ => false) :=
    List.countP_pos_iff.mpr ⟨_, List.getElem?_mem h2, by simp⟩
  omega

/-- While a caller holds the lock at two positions without a second
acquire, it holds the lock at every position in between. -/
theorem holdAt_interval (tr : List GateEvent) (honce : ∀ c, acqCount c tr ≤ 1)
    (i j k : Nat) (a : Nat) (hij : i ≤ j) (hjk : j ≤ k)
    (hi : holdAt tr i = some a) (hk : holdAt tr k = some a) :
    holdAt tr j = some a := by
  by_contra hj
  have hd : k = j + (k - j) := by omega
  obtain ⟨m2, hm1, hm2, hm3, hm4⟩ :=
    nat_crossing (fun m => holdAt tr m = some a) (k - j) j hj
      (by rw [← hd]; exact hk)
  cases he : tr[m2]? with
  | none =>
      rw [holdAt_succ_none tr m2 he] at hm4
      exact hm3 hm4
  | some e =>
      rw [holdAt_succ tr m2 e he] at hm4
      have he_acq : e = GateEvent.acquire a := by
        cases e with
        | acquire c => simp [stepHolder] at hm4; rw [hm4]
        | wire c m3 => exact absurd hm4 hm3
        | release c => simp [stepHolder] at hm4
      subst he_acq
      obtain ⟨m0, hm0, hget0⟩ := holdAt_some_acquire tr i a hi
      have h2 : 2 ≤ acqCount a tr :=
        two_acquires tr a m0 m2 (by omega) hget0 he
      have h1 := honce a
      omega

theorem wfFrom_wires (c : Nat) (xs : List WireMsg) :
    wfFrom (some c) (xs.map (GateEvent.wire c) ++ [GateEvent.release c]) = true := by
  induction xs with
  | nil => simp [wfFrom]
  | cons x rest ih => simpa [wfFrom] using ih

/-- One `transcribe` call's event block is a possible scheduling on its
own: acquire, wire sends, release, well-bracketed. -/
theorem transcribeEvents_wf (c sampleRate : Nat) (samples : List Nat) :
    wfTrace (transcribeEvents c sampleRate samples) = true := by
  simpa [wfTrace, transcribeEvents, wfFrom] using
    wfFrom_wires c (exchangeSends sampleRate samples)

/-- One `transcribe` call acquires the gate exactly once. -/
theorem transcribeEvents_acqCount (c c2 sampleRate : Nat) (samples : List Nat) :
    acqCount c2 (transcribeEvents c sampleRate samples)
      = if c = c2 then 1 else 0 := by
  unfold acqCount transcribeEvents
  rw [List.countP_cons]
  rw [List.countP_append]
  have h1 : ((exchangeSends sampleRate samples).map (GateEvent.wire c)).countP
      (fun e => match e with
        | GateEvent.acquire cc => cc == c2
        | _ => false) = 0 := by
    rw [List.countP_map]
    simp [Function.comp]
  rw [h1]
  by_cases h : c = c2 <;> simp [List.countP_cons, h]

/-- C9: in any possible scheduling (well-formed gate trace) in which each
in-flight call acquires the gate at most once, no other caller's gate
event — wire byte, acquire (the start of a model switch or unload), or
release — occurs between two wire events of one call.  In particular a
second `transcribe`'s header bytes never appear before the first's
terminator, and no model switch overlaps an in-flight transcription. -/
theorem C9_gate_serializes_wire (tr : List GateEvent)
    (hwf : wfTrace tr = true)
    (honce : ∀ c, acqCount c tr ≤ 1)
    (i j k : Nat) (a : Nat) (m1 m2 : WireMsg) (e : GateEvent)
    (hij : i < j) (hjk : j < k)
    (hi : tr[i]? = some (GateEvent.wire a m1))
    (hj : tr[j]? = some e)
    (hk : tr[k]? = some (GateEvent.wire a m2)) :
    e.caller = a := by
  have hH_i : holdAt tr i = some a := wf_event_holdAt tr hwf i _ hi
  have hH_k : holdAt tr k = some a := wf_event_holdAt tr hwf k _ hk
  have hH_j : holdAt tr j = some a :=
    holdAt_interval tr honce i j k a (by omega) (by omega) hH_i hH_k
  have hok := wf_event_holdAt tr hwf j e hj
  cases e with
  | acquire c =>
      rw [hH_j] at hok
      simp [eventOK] at hok
  | wire c m3 =>
      rw [hH_j] at hok
      simp only [eventOK, Option.some.injEq] at hok
      simpa [GateEvent.caller] using hok.symm
  | release c =>
      rw [hH_j] at hok
      simp only [eventOK, Option.some.injEq] at hok
      simpa [GateEvent.caller] using hok.symm

/-- Witness for C9 at a concrete trace: one caller's acquire, three wire
sends and release; the event between two of its wire events belongs to it. -/
theorem C9_gate_serializes_wire_witness :
    (GateEvent.wire 7 (WireMsg.text "b")).caller = 7 := by
  have honce : ∀ c, acqCount c
      [GateEvent.acquire 7, GateEvent.wire 7 (WireMsg.text "a"),
       GateEvent.wire 7 (WireMsg.text "b"), GateEvent.wire 7 (WireMsg.text "Done"),
       GateEvent.release 7] ≤ 1 := by
    intro c
    simp [acqCount, List.countP_cons, List.countP_nil]
    split <;> omega
  exact C9_gate_serializes_wire _ (by decide) honce 1 2 3 7
    (WireMsg.text "a") (WireMsg.text "Done") (GateEvent.wire 7 (WireMsg.text "b"))
    (by omega) (by omega) rfl rfl rfl

/-- `_kill_process` always ends with `self._process = None` and changes
nothing else, whatever path it takes. -/
theorem kill_process_eq (a : Adapter) (k : KillBehavior) :
    a.kill_process k = { a with process := none } := by
  unfold Adapter.kill_process
  cases hp : a.process with
  | none =>
      cases a
      simp at hp
      simp [hp]
  | some p =>
      by_cases h : p.returncode.isSome
      · simp [h]
      · cases k <;> simp [h]

theorem restart_subprocess_ready (a : Adapter) (now newPid : Nat) (k : KillBehavior) :
    a.restart_subprocess now newPid true k =
      (Except.ok (),
       { a with ws_open := false, process := some ⟨newPid, none⟩,
                subprocess_started_at := now,
                metrics := a.metrics.record_restart now,
                state := "loaded" }) := by
  simp [Adapter.restart_subprocess, Adapter.close_connection, kill_process_eq]

theorem restart_subprocess_not_ready (a : Adapter) (now newPid : Nat) (k : KillBehavior) :
    a.restart_subprocess now newPid false k =
      (Except.error (TranscribeError.restartFailed a.model_id),
       { a with ws_open := false, process := none, state := "error" }) := by
  simp [Adapter.restart_subprocess, Adapter.close_connection, kill_process_eq]

/-- Normal form of a `transcribe` call that succeeds on attempt 1. -/
theorem transcribe_first_success (a : Adapter) (env : TranscribeEnv)
    (k : KillBehavior) (hlock : env.lock_ok = true) (hstate : a.state = "loaded")
    (p : Proc) (hproc : a.process = some p)
    (hpro : a.proactiveDue env.now = false)
    (raw : String) (t : String) (henv1 : env.attempt1 = AttemptResult.received raw)
    (hparse : parseResponse raw = Except.ok t) :
    a.transcribe env k =
      (Except.ok t,
       { a with ws_open := true, metrics := a.metrics.record_success }) := by
  simp [Adapter.transcribe, hlock, hstate, hproc, Adapter.maybe_proactive_restart,
    hpro, henv1, Adapter.do_transcribe, attemptOutcome, hparse]

/-- Normal form of a `transcribe` call whose attempt 1 fails, whose restart
succeeds, and whose attempt 2 succeeds. -/
theorem transcribe_retry_success (a : Adapter) (env : TranscribeEnv)
    (k : KillBehavior) (hlock : env.lock_ok = true) (hstate : a.state = "loaded")
    (p : Proc) (hproc : a.process = some p)
    (hpro : a.proactiveDue env.now = false)
    (h1 : attemptOutcome env.attempt1 = Except.error ())
    (hready : env.restart_ready = true)
    (raw : String) (t : String) (henv2 : env.attempt2 = AttemptResult.received raw)
    (hparse : parseResponse raw = Except.ok t) :
    a.transcribe env k =
      (Except.ok t,
       { a with process := some ⟨env.restart_pid, none⟩,
                subprocess_started_at := env.now,
                state := "loaded", ws_open := true,
                metrics := ((a.metrics.record_error).record_restart env.now).record_success }) := by
  cases henv1 : env.attempt1 with
  | ioError =>
      simp [Adapter.transcribe, hlock, hstate, hproc, Adapter.maybe_proactive_restart,
        hpro, henv1, henv2, Adapter.do_transcribe, attemptOutcome, hparse, hready,
        restart_subprocess_ready, Adapter.close_connection]
  | received raw1 =>
      cases hp1 : parseResponse raw1 with
      | ok t1 => rw [henv1] at h1; simp [attemptOutcome, hp1] at h1
      | error s1 =>
          simp [Adapter.transcribe, hlock, hstate, hproc, Adapter.maybe_proactive_restart,
            hpro, henv1, henv2, Adapter.do_transcribe, attemptOutcome, hp1, hparse, hready,
            restart_subprocess_ready, Adapter.close_connection]

/-- Normal form of a `transcribe` call whose two attempts both fail with a
successful restart in between. -/
theorem transcribe_retry_fail (a : Adapter) (env : TranscribeEnv)
    (k : KillBehavior) (hlock : env.lock_ok = true) (hstate : a.state = "loaded")
    (p : Proc) (hproc : a.process = some p)
    (hpro : a.proactiveDue env.now = false)
    (h1 : attemptOutcome env.attempt1 = Except.error ())
    (hready : env.restart_ready = true)
    (h2 : attemptOutcome env.attempt2 = Except.error ()) :
    a.transcribe env k =
      (Except.error TranscribeError.retryFailed,
       { a with process := some ⟨env.restart_pid, none⟩,
                subprocess_started_at := env.now,
                state := "loaded", ws_open := false,
                metrics := ((a.metrics.record_error).record_restart env.now).record_error }) := by
  cases henv1 : env.attempt1 with
  | ioError =>
      cases henv2 : env.attempt2 with
      | ioError =>
          simp [Adapter.transcribe, hlock, hstate, hproc, Adapter.maybe_proactive_restart,
            hpro, henv1, henv2, Adapter.do_transcribe, attemptOutcome, hready,
            restart_subprocess_ready, Adapter.close_connection]
      | received raw2 =>
          cases hp2 : parseResponse raw2 with
          | ok t2 => rw [henv2] at h2; simp [attemptOutcome, hp2] at h2
          | error s2 =>
              simp [Adapter.transcribe, hlock, hstate, hproc, Adapter.maybe_proactive_restart,
                hpro, henv1, henv2, Adapter.do_transcribe, attemptOutcome, hp2, hready,
                restart_subprocess_ready, Adapter.close_connection]
  | received raw1 =>
      cases hp1 : parseResponse raw1 with
      | ok t1 => rw [henv1] at h1; simp [attemptOutcome, hp1] at h1
      | error s1 =>
          cases henv2 : env.attempt2 with
          | ioError =>
              simp [Adapter.transcribe, hlock, hstate, hproc, Adapter.maybe_proactive_restart,
                hpro, henv1, henv2, Adapter.do_transcribe, attemptOutcome, hp1, hready,
                restart_subprocess_ready, Adapter.close_connection]
          | received raw2 =>
              cases hp2 : parseResponse raw2 with
              | ok t2 => rw [henv2] at h2; simp [attemptOutcome, hp2] at h2
              | error s2 =>
                  simp [Adapter.transcribe, hlock, hstate, hproc, Adapter.maybe_proactive_restart,
                    hpro, henv1, henv2, Adapter.do_transcribe, attemptOutcome, hp1, hp2, hready,
                    restart_subprocess_ready, Adapter.close_connection]

/-! ## Claim theorems -/

/-- A concrete healthy loaded adapter used as a test fixture. -/
def loadedAdapter : Adapter :=
  { base_dir := "/models", provider := "cuda", num_threads := "4",
    default_model := "parakeet-tdt-0.6b-v2-int8", port := 7100,
    max_utterance := "600", proactive_restart_hours := 12,
    model_id := some "m", model_dir := some "/models/m",
    model_files := some ⟨"/models/m/encoder.int8.onnx", "/models/m/decoder.int8.onnx",
                         "/models/m/joiner.int8.onnx", "/models/m/tokens.txt"⟩,
    process := some ⟨41, none⟩, state := "loaded", ws_open := true,
    subprocess_started_at := 1000, metrics := HealthMetrics.init }

/-- C1 counterexample: with N = 2560 samples the payload is exactly
10240 bytes, so `ceil(payload/10240) = 1`, but the code prepends the 8-byte
header to the buffer before chunking and therefore performs 2 writes. -/
theorem C1_counterexample :
    (sendChunks (transcribeSendBuf 16000 (List.replicate 2560 0))).length = 2
    ∧ (4 * 2560 + (chunkSize - 1)) / chunkSize = 1 := by
  constructor
  · rw [sendChunks_length, transcribeSendBuf_length]
    norm_num [chunkSize]
  · norm_num [chunkSize]

/-- C1 (amended): for a transcription of N in-range samples at in-range
rate R, the bytes sent are exactly the 8-byte little-endian header (R,
then 4×N) followed immediately by the raw sample bytes, transmitted as
`ceil((8 + 4N)/10240)` writes — the header is chunked together with the
payload — each of at most 10240 bytes, followed by the `"Done"`
terminator. -/
theorem C1_amended (sampleRate : Nat) (samples : List Nat)
    (hrate : sampleRate < 2 ^ 31) (hbytes : 4 * samples.length < 2 ^ 31) :
    (sendChunks (transcribeSendBuf sampleRate samples)).flatten
        = packHeader sampleRate (samples.length * 4) ++ samplesToBytes samples
    ∧ (sendChunks (transcribeSendBuf sampleRate samples)).length
        = (8 + 4 * samples.length + (chunkSize - 1)) / chunkSize
    ∧ (∀ w ∈ sendChunks (transcribeSendBuf sampleRate samples), w.length ≤ chunkSize)
    ∧ (exchangeSends sampleRate samples).getLast? = some (WireMsg.text "Done") := by
  refine ⟨?_, ?_, sendChunks_le _, ?_⟩
  · rw [sendChunks_flatten]
    rfl
  · rw [sendChunks_length, transcribeSendBuf_length]
  · simp [exchangeSends]

/-- Witness for C1 (amended) at rate 16000 and one sample. -/
theorem C1_amended_witness :
    (sendChunks (transcribeSendBuf 16000 [0])).length = 1
    ∧ (exchangeSends 16000 [0]).getLast? = some (WireMsg.text "Done") := by
  have h := C1_amended 16000 [0] (by norm_num) (by norm_num)
  refine ⟨?_, h.2.2.2⟩
  rw [h.2.1]
  norm_num [chunkSize]

/-- C6: a `transcribe` call whose lock wait times out raises the distinct
lock-timeout error and mutates no adapter field at all. -/
theorem C6_lock_timeout (a : Adapter) (env : TranscribeEnv) (k : KillBehavior)
    (h : env.lock_ok = false) :
    a.transcribe env k = (Except.error TranscribeError.lockTimeout, a) := by
  simp [Adapter.transcribe, h]

/-- Witness for C6 at the concrete loaded adapter. -/
theorem C6_lock_timeout_witness :
    loadedAdapter.transcribe
        ⟨false, 1000, true, 42, AttemptResult.ioError, true, 43, AttemptResult.ioError⟩
        KillBehavior.graceful
      = (Except.error TranscribeError.lockTimeout, loadedAdapter) :=
  C6_lock_timeout loadedAdapter _ KillBehavior.graceful rfl

/-- C2 counterexample: attempt 1 fails, the restart succeeds, attempt 2
fails — `transcribe` raises the terminal retry error but the adapter state
stays `"loaded"`, not `"error"` (`_restart_subprocess` set it back to
`"loaded"` and the attempt-2 handler never touches it). -/
theorem C2_counterexample :
    (loadedAdapter.transcribe
        ⟨true, 1000, true, 42, AttemptResult.ioError, true, 43, AttemptResult.ioError⟩
        KillBehavior.graceful).1 = Except.error TranscribeError.retryFailed
    ∧ (loadedAdapter.transcribe
        ⟨true, 1000, true, 42, AttemptResult.ioError, true, 43, AttemptResult.ioError⟩
        KillBehavior.graceful).2.state = "loaded"
    ∧ (loadedAdapter.transcribe
        ⟨true, 1000, true, 42, AttemptResult.ioError, true, 43, AttemptResult.ioError⟩
        KillBehavior.graceful).2.state ≠ "error" := by
  refine ⟨rfl, rfl, ?_⟩
  decide

/-- C2 (amended): when the first attempt fails, the restart succeeds and
the second attempt also fails, `transcribe` surfaces the terminal retry
error and closes the connection, but the adapter state remains `"loaded"`
(the successful restart set it), not `"error"`. -/
theorem C2_amended (a : Adapter) (env : TranscribeEnv) (k : KillBehavior)
    (hlock : env.lock_ok = true) (hstate : a.state = "loaded")
    (p : Proc) (hproc : a.process = some p)
    (hpro : a.proactiveDue env.now = false)
    (h1 : attemptOutcome env.attempt1 = Except.error ())
    (hready : env.restart_ready = true)
    (h2 : attemptOutcome env.attempt2 = Except.error ()) :
    (a.transcribe env k).1 = Except.error TranscribeError.retryFailed
    ∧ (a.transcribe env k).2.state = "loaded"
    ∧ (a.transcribe env k).2.ws_open = false := by
  rw [transcribe_retry_fail a env k hlock hstate p hproc hpro h1 hready h2]
  exact ⟨rfl, rfl, rfl⟩

/-- Witness for C2 (amended) at the concrete loaded adapter. -/
theorem C2_amended_witness :
    (loadedAdapter.transcribe
        ⟨true, 1000, false, 42, AttemptResult.ioError, true, 43,
         AttemptResult.received "\x7b\"text\": 1\x7d"⟩
        KillBehavior.forced).1 = Except.error TranscribeError.retryFailed := by
  have h := C2_amended loadedAdapter
    ⟨true, 1000, false, 42, AttemptResult.ioError, true, 43,
     AttemptResult.received "\x7b\"text\": 1\x7d"⟩
    KillBehavior.forced rfl rfl ⟨41, none⟩ rfl rfl rfl rfl rfl
  exact h.1

/-- The guard branch of `transcribe`: not loaded or no handle. -/
theorem transcribe_not_ready (a : Adapter) (env : TranscribeEnv) (k : KillBehavior)
    (hlock : env.lock_ok = true) (hg : a.state ≠ "loaded" ∨ a.process = none) :
    a.transcribe env k = (Except.error (TranscribeError.notReady a.state), a) := by
  unfold Adapter.transcribe
  rw [hlock]
  rw [if_neg (by simp)]
  rw [if_pos hg]

/-- `_restart_subprocess` only ever raises its restart-failure error. -/
theorem restart_error_shape (a : Adapter) (now newPid : Nat) (ready : Bool)
    (k : KillBehavior) (e : TranscribeError) (a1 : Adapter)
    (h : a.restart_subprocess now newPid ready k = (Except.error e, a1)) :
    e = TranscribeError.restartFailed a.model_id := by
  cases ready with
  | false =>
      rw [restart_subprocess_not_ready] at h
      have := congrArg Prod.fst h
      simp at this
      exact this.symm
  | true =>
      rw [restart_subprocess_ready] at h
      have := congrArg Prod.fst h
      simp at this

/-- `_maybe_proactive_restart` only ever raises a restart-failure error. -/
theorem maybe_proactive_error_shape (a : Adapter) (env : TranscribeEnv)
    (k : KillBehavior) (e : TranscribeError) (a1 : Adapter)
    (h : a.maybe_proactive_restart env k = (Except.error e, a1)) :
    e = TranscribeError.restartFailed a.model_id := by
  unfold Adapter.maybe_proactive_restart at h
  split at h
  · exact restart_error_shape _ _ _ _ _ _ _ h
  · simp at h

/-- A `transcribe` call that passes the guard never raises the not-ready
error, whatever happens later. -/
theorem transcribe_no_notReady (a : Adapter) (env : TranscribeEnv)
    (k : KillBehavior) (hlock : env.lock_ok = true) (hstate : a.state = "loaded")
    (p : Proc) (hproc : a.process = some p) (s : String) :
    (a.transcribe env k).1 ≠ Except.error (TranscribeError.notReady s) := by
  unfold Adapter.transcribe
  rw [hlock]
  rw [if_neg (by simp)]
  rw [if_neg (by simp [hstate, hproc])]
  split
  next e a1 heq =>
    have := maybe_proactive_error_shape a env k e a1 heq
    simp [this]
  next a1 heq =>
    split
    next t a2 heq2 => simp
    next a2 heq2 =>
      dsimp only
      split
      next e2 a5 heq3 =>
        have := restart_error_shape _ _ _ _ _ _ _ heq3
        simp [this]
      next a5 heq3 =>
        split
        next t2 a6 heq4 => simp
        next a6 heq4 => simp

/-- C3 counterexample: an adapter in state `"loaded"` whose subprocess
handle has a recorded exit code (the process was killed externally) — the
claim says `transcribe` rejects with a not-ready error, but the code only
checks `self._process is None` and proceeds to the wire exchange. -/
theorem C3_counterexample :
    (({ loadedAdapter with process := some ⟨5, some 1⟩ } : Adapter).transcribe
        ⟨true, 1000, true, 42, AttemptResult.received "hello", true, 43,
         AttemptResult.ioError⟩ KillBehavior.graceful).1 = Except.ok "hello"
    ∧ ({ loadedAdapter with process := some ⟨5, some 1⟩ } : Adapter).process
        = some ⟨5, some 1⟩
    ∧ ∀ s, (Except.ok "hello" : Except TranscribeError String)
        ≠ Except.error (TranscribeError.notReady s) := by
  refine ⟨rfl, rfl, ?_⟩
  intro s
  simp

/-- C3 (amended): with the lock acquired, `transcribe` rejects with the
not-ready error exactly when the state is not `"loaded"` or no subprocess
handle is present — the handle's exit code is not consulted — and in the
rejecting case the adapter is left unchanged. -/
theorem C3_amended (a : Adapter) (env : TranscribeEnv) (k : KillBehavior)
    (hlock : env.lock_ok = true) :
    (∀ s, (a.transcribe env k).1 = Except.error (TranscribeError.notReady s)
        ↔ s = a.state ∧ (a.state ≠ "loaded" ∨ a.process = none))
    ∧ ((a.state ≠ "loaded" ∨ a.process = none) → (a.transcribe env k).2 = a) := by
  by_cases hg : a.state ≠ "loaded" ∨ a.process = none
  · rw [transcribe_not_ready a env k hlock hg]
    refine ⟨fun s => ?_, fun _ => rfl⟩
    constructor
    · intro h
      simp at h
      exact ⟨h.symm, hg⟩
    · rintro ⟨hs, _⟩
      simp [hs]
  · push_neg at hg
    obtain ⟨hstate, hpne⟩ := hg
    obtain ⟨p, hp⟩ := Option.ne_none_iff_exists'.mp hpne
    constructor
    · intro s
      constructor
      · intro h
        exact absurd h (transcribe_no_notReady a env k hlock hstate p hp s)
      · rintro ⟨_, hcon | hcon⟩
        · exact absurd hstate hcon
        · rw [hcon] at hp
          cases hp
    · rintro (hcon | hcon)
      · exact absurd hstate hcon
      · rw [hcon] at hp
        cases hp

/-- Witness for C3 (amended) at a concrete unloaded adapter. -/
theorem C3_amended_witness :
    (({ loadedAdapter with state := "unloaded", process := none } : Adapter).transcribe
        ⟨true, 1000, true, 42, AttemptResult.ioError, true, 43, AttemptResult.ioError⟩
        KillBehavior.graceful).1
      = Except.error (TranscribeError.notReady "unloaded") := by
  have h := C3_amended { loadedAdapter with state := "unloaded", process := none }
    ⟨true, 1000, true, 42, AttemptResult.ioError, true, 43, AttemptResult.ioError⟩
    KillBehavior.graceful rfl
  exact (h.1 "unloaded").mpr ⟨rfl, Or.inr rfl⟩

/-- C10: health metrics count attempts, not calls.  A call that succeeds
on its first attempt adds 1 to `request_count`, leaves `error_count`
unchanged and resets `consecutive_errors`; a call whose first attempt
fails and whose restart-and-retry succeeds adds 2 to `request_count`, 1 to
`error_count`, 1 to `subprocess_restart_count`, and still ends with
`consecutive_errors = 0`. -/
theorem C10_metrics_count_attempts (a : Adapter) (env : TranscribeEnv)
    (k : KillBehavior) (hlock : env.lock_ok = true) (hstate : a.state = "loaded")
    (p : Proc) (hproc : a.process = some p)
    (hpro : a.proactiveDue env.now = false) :
    (∀ raw t, env.attempt1 = AttemptResult.received raw →
        parseResponse raw = Except.ok t →
        (a.transcribe env k).1 = Except.ok t
        ∧ (a.transcribe env k).2.metrics.request_count
            = a.metrics.request_count + 1
        ∧ (a.transcribe env k).2.metrics.error_count = a.metrics.error_count
        ∧ (a.transcribe env k).2.metrics.consecutive_errors = 0)
    ∧ (∀ raw t, attemptOutcome env.attempt1 = Except.error () →
        env.restart_ready = true →
        env.attempt2 = AttemptResult.received raw →
        parseResponse raw = Except.ok t →
        (a.transcribe env k).1 = Except.ok t
        ∧ (a.transcribe env k).2.metrics.request_count
            = a.metrics.request_count + 2
        ∧ (a.transcribe env k).2.metrics.error_count = a.metrics.error_count + 1
        ∧ (a.transcribe env k).2.metrics.subprocess_restart_count
            = a.metrics.subprocess_restart_count + 1
        ∧ (a.transcribe env k).2.metrics.consecutive_errors = 0) := by
  constructor
  · intro raw t h1 h2
    rw [transcribe_first_success a env k hlock hstate p hproc hpro raw t h1 h2]
    refine ⟨rfl, ?_, rfl, rfl⟩
    rfl
  · intro raw t h1 hr h2 h3
    rw [transcribe_retry_success a env k hlock hstate p hproc hpro h1 hr raw t h2 h3]
    refine ⟨rfl, ?_, rfl, rfl, rfl⟩
    simp [HealthMetrics.record_success, HealthMetrics.record_error,
      HealthMetrics.record_restart]

/-- Witness for C10 at the concrete loaded adapter: the first-attempt
success and the retry success, each with the claimed counter deltas. -/
theorem C10_metrics_count_attempts_witness :
    ((loadedAdapter.transcribe
        ⟨true, 1000, true, 42, AttemptResult.received "hi", true, 43,
         AttemptResult.ioError⟩ KillBehavior.graceful).2.metrics.request_count = 1)
    ∧ ((loadedAdapter.transcribe
        ⟨true, 1000, true, 42, AttemptResult.ioError, true, 43,
         AttemptResult.received "hi"⟩ KillBehavior.graceful).2.metrics.request_count = 2) := by
  constructor
  · have h := (C10_metrics_count_attempts loadedAdapter
      ⟨true, 1000, true, 42, AttemptResult.received "hi", true, 43,
       AttemptResult.ioError⟩ KillBehavior.graceful rfl rfl ⟨41, none⟩ rfl rfl).1
      "hi" "hi" rfl rfl
    exact h.2.1
  · have h := (C10_metrics_count_attempts loadedAdapter
      ⟨true, 1000, true, 42, AttemptResult.ioError, true, 43,
       AttemptResult.received "hi"⟩ KillBehavior.graceful rfl rfl ⟨41, none⟩ rfl rfl).2
      "hi" "hi" rfl rfl rfl rfl
    exact h.2.1

/-- C4 counterexample: a structured response whose `text` field is the
literal `"<EMPTY>"` sentinel is returned verbatim — the normalization only
happens on the plain-text path — and a response parsing to non-object JSON
(here `123`) raises instead of yielding text, so the parsing step is not
total either. -/
theorem C4_counterexample :
    parseResponse "\x7b\"text\": \"<EMPTY>\"\x7d" = Except.ok "<EMPTY>"
    ∧ parseResponse "123" = Except.error "AttributeError" :=
  ⟨rfl, rfl⟩

/-- C4 (amended): a response that fails JSON parsing yields its stripped
raw text with the `"<EMPTY>"` sentinel normalized to the empty string; a
response parsing as a JSON object yields the stripped string value of its
`text` field as-is — the sentinel is NOT normalized on this path — or the
empty string when the field is absent; all other cases raise and fail the
attempt. -/
theorem C4_amended (raw : String) :
    (json_loads raw = none →
      parseResponse raw
        = Except.ok (if pyStrip raw = "<EMPTY>" then "" else pyStrip raw))
    ∧ (∀ fields s, json_loads raw = some (PyJson.obj fields) →
        dictGet "text" fields = some (PyJson.str s) →
        parseResponse raw = Except.ok (pyStrip s))
    ∧ (∀ fields, json_loads raw = some (PyJson.obj fields) →
        dictGet "text" fields = none →
        parseResponse raw = Except.ok "") := by
  refine ⟨fun h => ?_, fun fields s h1 h2 => ?_, fun fields h1 h2 => ?_⟩
  · simp [parseResponse, h]
  · simp [parseResponse, h1, h2]
  · simp [parseResponse, h1, h2]

/-- Witness for C4 (amended): the plain-text sentinel is normalized, and a
structured `text` field comes through stripped. -/
theorem C4_amended_witness :
    parseResponse "<EMPTY>" = Except.ok ""
    ∧ parseResponse "\x7b\"text\": \" hi \"\x7d" = Except.ok "hi" := by
  constructor
  · have h := (C4_amended "<EMPTY>").1 rfl
    exact h.trans rfl
  · have h := (C4_amended "\x7b\"text\": \" hi \"\x7d").2.1
      [("text", PyJson.str " hi ")] " hi " rfl rfl
    exact h.trans rfl

/-- C5 counterexample: an adapter with nonzero health counters calls
`load_model` for a model that does not exist; the call raises not-found
and sets state `"error"`, but the counters are NOT left unchanged — the
code resets them before resolving the model directory. -/
theorem C5_counterexample :
    ((({ loadedAdapter with metrics := ⟨5, 2, 1, 900, 3⟩ } : Adapter).load_model
        "missing-model" ⟨[], true, 1000, 50⟩ KillBehavior.graceful).1
      = Except.error (LoadError.notFound "missing-model" "/models"))
    ∧ ((({ loadedAdapter with metrics := ⟨5, 2, 1, 900, 3⟩ } : Adapter).load_model
        "missing-model" ⟨[], true, 1000, 50⟩ KillBehavior.graceful).2.state
      = "error")
    ∧ ((({ loadedAdapter with metrics := ⟨5, 2, 1, 900, 3⟩ } : Adapter).load_model
        "missing-model" ⟨[], true, 1000, 50⟩ KillBehavior.graceful).2.metrics
      = HealthMetrics.init)
    ∧ ({ loadedAdapter with metrics := ⟨5, 2, 1, 900, 3⟩ } : Adapter).metrics
        ≠ HealthMetrics.init := by
  refine ⟨rfl, rfl, rfl, ?_⟩
  decide

/-- C5 (amended): health metrics are reset at the start of the load
attempt — before model-file resolution — so a `load_model` call that fails
with a not-found or incomplete-model error raises, sets state `"error"`,
and leaves every health counter reset to zero (not unchanged). -/
theorem C5_amended (a : Adapter) (mid : String) (env : LoadEnv) (k : KillBehavior)
    (hnoop : ¬(a.model_id = some mid ∧ a.state = "loaded")) :
    (find_model_dir env.fs a.base_dir mid = none →
      (a.load_model mid env k).1 = Except.error (LoadError.notFound mid a.base_dir)
      ∧ (a.load_model mid env k).2.state = "error"
      ∧ (a.load_model mid env k).2.metrics = HealthMetrics.init)
    ∧ (∀ dir c d, find_model_dir env.fs a.base_dir mid = some dir →
        detect_model_files env.fs dir = Except.error (c, d) →
        (a.load_model mid env k).1 = Except.error (LoadError.incomplete mid c d)
        ∧ (a.load_model mid env k).2.state = "error"
        ∧ (a.load_model mid env k).2.metrics = HealthMetrics.init) := by
  constructor
  · intro hf
    by_cases hsw : a.model_id.isSome ∧ a.model_id ≠ some mid <;>
      simp [Adapter.load_model, hnoop, hsw, Adapter.do_unload,
        Adapter.close_connection, kill_process_eq, hf, HealthMetrics.reset,
        HealthMetrics.init]
  · intro dir c d hf hd
    by_cases hsw : a.model_id.isSome ∧ a.model_id ≠ some mid <;>
      simp [Adapter.load_model, hnoop, hsw, Adapter.do_unload,
        Adapter.close_connection, kill_process_eq, hf, hd, HealthMetrics.reset,
        HealthMetrics.init]

/-- Witness for C5 (amended): the concrete counterexample adapter against
an empty filesystem. -/
theorem C5_amended_witness :
    ((({ loadedAdapter with metrics := ⟨5, 2, 1, 900, 3⟩ } : Adapter).load_model
        "other" ⟨[], true, 1000, 50⟩ KillBehavior.forced).2.metrics
      = HealthMetrics.init) := by
  have h := (C5_amended { loadedAdapter with metrics := ⟨5, 2, 1, 900, 3⟩ }
    "other" ⟨[], true, 1000, 50⟩ KillBehavior.forced (by simp [loadedAdapter])).1 rfl
  exact h.2.2

/-- C7: `unload_model` never raises (it is a total function of the adapter
state), leaves the connection closed, the handle and model identity
cleared and the state `"unloaded"`, and running it a second time changes
nothing. -/
theorem C7_unload_idempotent (a : Adapter) (k k2 : KillBehavior) :
    (a.unload_model k).state = "unloaded"
    ∧ (a.unload_model k).ws_open = false
    ∧ (a.unload_model k).process = none
    ∧ (a.unload_model k).model_id = none
    ∧ (a.unload_model k).model_dir = none
    ∧ (a.unload_model k).model_files = none
    ∧ (a.unload_model k).unload_model k2 = a.unload_model k := by
  simp [Adapter.unload_model, Adapter.do_unload, Adapter.close_connection,
    kill_process_eq]

/-! ## C8: the model directory resolver against the spec's description -/

/-- Resolver failures: not-found, or incomplete naming the missing
component and the directory. -/
inductive ResolveErr where
  | notFound
  | incomplete (component dir : String)
deriving DecidableEq, Repr

/-- The resolver exactly as `load_model` composes `_find_model_dir` with
`_detect_model_files`. -/
def resolveModelFiles (fs : List String) (base_dir model_id : String) :
    Except ResolveErr ModelFiles :=
  match find_model_dir fs base_dir model_id with
  | none => Except.error ResolveErr.notFound
  | some dir =>
      match detect_model_files fs dir with
      | Except.error (c, d) => Except.error (ResolveErr.incomplete c d)
      | Except.ok files => Except.ok files

/-- The candidate directories in the order the spec lists them:
`base_dir/model_id`, the vendor-prefixed variant, then any registered
alias for known ids (spec-side definition for the C8 refinement). -/
def specCandidateDirs (base_dir model_id : String) : List String :=
  [pathJoin base_dir model_id,
   pathJoin base_dir ("sherpa-onnx-nemo-" ++ model_id)]
  ++ ((KNOWN_MODELS.find? fun kv => kv.1 == model_id).map
        fun kv => pathJoin base_dir kv.2.aliasDirName).toList

/-- Component selection as the spec words it: prefer the quantized (int8)
variant over the full-precision one when both exist. -/
def specPickComponent (fs : List String) (dir component : String) : Option String :=
  if isFile fs (pathJoin dir (component ++ ".int8.onnx")) then
    some (pathJoin dir (component ++ ".int8.onnx"))
  else if isFile fs (pathJoin dir (component ++ ".onnx")) then
    some (pathJoin dir (component ++ ".onnx"))
  else none

/-- The resolver as the C8 claim describes it: the first candidate
directory containing the vocabulary file wins; not-found when none
validates; components selected with int8 preference; incomplete names the
first missing component. -/
def specResolve (fs : List String) (base_dir model_id : String) :
    Except ResolveErr ModelFiles :=
  match (specCandidateDirs base_dir model_id).find?
      (fun d => isFile fs (pathJoin d "tokens.txt")) with
  | none => Except.error ResolveErr.notFound
  | some dir =>
      match specPickComponent fs dir "encoder",
            specPickComponent fs dir "decoder",
            specPickComponent fs dir "joiner" with
      | none, _, _ => Except.error (ResolveErr.incomplete "encoder" dir)
      | some _, none, _ => Except.error (ResolveErr.incomplete "decoder" dir)
      | some _, some _, none => Except.error (ResolveErr.incomplete "joiner" dir)
      | some e, some d, some j => Except.ok ⟨e, d, j, pathJoin dir "tokens.txt"⟩

theorem specPickComponent_eq (fs : List String) (dir component : String) :
    specPickComponent fs dir component = pickComponent fs dir component := rfl

/-- `_find_model_dir`'s cascade equals first-match over the spec's ordered
candidate list. -/
theorem find_model_dir_eq_spec (fs : List String) (base_dir model_id : String) :
    find_model_dir fs base_dir model_id
      = (specCandidateDirs base_dir model_id).find?
          (fun d => isFile fs (pathJoin d "tokens.txt")) := by
  unfold find_model_dir specCandidateDirs
  cases hk : KNOWN_MODELS.find? (fun kv => kv.1 == model_id) with
  | none =>
      by_cases b1 : isFile fs (pathJoin (pathJoin base_dir model_id) "tokens.txt") <;>
        by_cases b2 : isFile fs
            (pathJoin (pathJoin base_dir ("sherpa-onnx-nemo-" ++ model_id)) "tokens.txt") <;>
          simp [List.find?_cons, b1, b2, hk]
  | some kv =>
      by_cases b1 : isFile fs (pathJoin (pathJoin base_dir model_id) "tokens.txt") <;>
        by_cases b2 : isFile fs
            (pathJoin (pathJoin base_dir ("sherpa-onnx-nemo-" ++ model_id)) "tokens.txt") <;>
          by_cases b3 : isFile fs
              (pathJoin (pathJoin base_dir kv.2.aliasDirName) "tokens.txt") <;>
            simp [List.find?_cons, b1, b2, b3, hk]

/-- C8: the resolver tries the candidate directories in order, accepts one
only if it holds the vocabulary file, picks components preferring the int8
variant, and fails not-found / incomplete exactly as the spec describes:
the code resolver and the spec-worded resolver agree on every filesystem,
base directory and model id. -/
theorem C8_resolver_refines_spec (fs : List String) (base_dir model_id : String) :
    resolveModelFiles fs base_dir model_id = specResolve fs base_dir model_id := by
  unfold resolveModelFiles specResolve
  rw [find_model_dir_eq_spec]
  cases hfind : (specCandidateDirs base_dir model_id).find?
      (fun d => isFile fs (pathJoin d "tokens.txt")) with
  | none => rfl
  | some dir =>
      have htok : isFile fs (pathJoin dir "tokens.txt") = true := by
        have := List.find?_some hfind
        simpa using this
      cases he : pickComponent fs dir "encoder" <;>
        cases hd : pickComponent fs dir "decoder" <;>
          cases hj : pickComponent fs dir "joiner" <;>
            simp [detect_model_files, htok, he, hd, hj, specPickComponent_eq]
